import Mathlib

/-!
Verification development for the Slack bot in `app.py` (google-meet-slack-bot).

The source is shallowly embedded: strings are `List Char`, the two command
regexes of `handle_mtg_command` are embedded as deterministic maximal-munch
matchers (which is exactly what Python's greedy backtracking computes on these
patterns, since the character classes of adjacent pieces are disjoint), the
per-channel prefix file store is a map `List Char → Option (List Char)`, and
the external world (Slack directory, Google auth, Calendar insert, Meet API
responses) is an explicit environment record.  Handlers return the sequence of
pipeline steps they performed plus their observable outcome (a Slack reply, or
an exception escaping the handler).
-/

namespace MeetBot

/-- Python `\s` / `str.strip()` whitespace, ASCII fragment (the inputs of
interest are Slack command text). -/
def pySpace (c : Char) : Bool :=
  c = ' ' || c = '\t' || c = '\n' || c = '\r' || c = '\x0b' || c = '\x0c'

/-- Python `\d`, ASCII decimal digits. -/
def pyDigit (c : Char) : Bool :=
  '0' ≤ c && c ≤ '9'

/-- Right-strip: remove trailing `pySpace` characters. -/
def rtrimL (l : List Char) : List Char :=
  (l.reverse.dropWhile pySpace).reverse

/-- Python `str.strip()`: remove leading and trailing whitespace. -/
def pyStrip (l : List Char) : List Char :=
  (rtrimL l).dropWhile pySpace

/-- Decimal value of a digit run, as computed by Python `int()` on a `\d+`
match. -/
def digitsVal (l : List Char) : Nat :=
  l.foldl (fun a c => 10 * a + (c.toNat - '0'.toNat)) 0

/-- Matcher for the trailing `\s*(.*)$` of both command patterns (after the
digit run), returning the text captured by `(.*)`.  `.` does not match a
newline and `$` matches at the end of the string or just before a final
newline, so the tail matches iff the remainder after the whitespace run
contains no newline except possibly as its last character. -/
def dotStarTail (l : List Char) : Option (List Char) :=
  let r := l.dropWhile pySpace
  if r.all (fun c => c ≠ '\n') then some r
  else if r.getLast? = some '\n' && (r.dropLast.all (fun c => c ≠ '\n')) then
    some r.dropLast
  else none

/-- Matcher for `\s+(\d+)\s*(.*)$`: at least one whitespace character, then a
maximal digit run (the duration), then the mention remainder. -/
def numTail (l : List Char) : Option (Nat × List Char) :=
  let ws := l.takeWhile pySpace
  let r1 := l.dropWhile pySpace
  if ws.isEmpty then none
  else
    let ds := r1.takeWhile pyDigit
    let r2 := r1.dropWhile pyDigit
    if ds.isEmpty then none
    else
      match dotStarTail r2 with
      | some rest => some (digitsVal ds, rest)
      | none => none

/-- `re.match(r'^"([^"]+)"\s+(\d+)\s*(.*)$', s)` — quoted grammar
(app.py line 296).  The title is the non-empty run of non-quote characters
after the opening quote, which must be terminated by a closing quote. -/
def quotedMatch (s : List Char) : Option (List Char × Nat × List Char) :=
  match s with
  | '"' :: r =>
    let title := r.takeWhile (fun c => c ≠ '"')
    let r1 := r.dropWhile (fun c => c ≠ '"')
    if title.isEmpty then none
    else
      match r1 with
      | '"' :: r2 => (numTail r2).map (fun p => (title, p.1, p.2))
      | _ => none
  | _ => none

/-- `re.match(r'^(\S+)\s+(\d+)\s*(.*)$', s)` — unquoted grammar
(app.py line 299).  The title is the maximal leading run of non-whitespace
characters. -/
def unquotedMatch (s : List Char) : Option (List Char × Nat × List Char) :=
  let w := s.takeWhile (fun c => !pySpace c)
  let r := s.dropWhile (fun c => !pySpace c)
  if w.isEmpty then none
  else (numTail r).map (fun p => (w, p.1, p.2))

/-- The command parser of `handle_mtg_command` (app.py lines 296-310):
quoted grammar first, then unquoted; `none` is the `MalformedCommand`
case (lines 311-321). -/
def parseCommand (s : List Char) : Option (List Char × Nat × List Char) :=
  match quotedMatch s with
  | some v => some v
  | none => unquotedMatch s

/-! ## Configuration store and the set-prefix handler -/

/-- The per-channel prefix store: channel id → content of
`STORAGE_DIR/<channel>.txt` (`none` when the file is absent). -/
def Store : Type := List Char → Option (List Char)

/-- Point update of the store (write or delete one channel's file). -/
def storeSet (st : Store) (ch : List Char) (v : Option (List Char)) : Store :=
  fun c => if c = ch then v else st c

/-- A reply sent via Bolt `respond`: without `response_type` it is ephemeral
(visible to the invoking user only); with `response_type=in_channel` it is
broadcast to the channel. -/
inductive Reply where
  | ephemeral (msg : List Char)
  | channelWide (msg : List Char)
deriving DecidableEq

/-- Observable outcome of a handler invocation: a reply, or a
`filelock.Timeout` exception escaping the handler uncaught. -/
inductive Outcome where
  | replied (r : Reply)
  | raisedTimeout
deriving DecidableEq

/-- Core of `handle_reg_prefix` (app.py lines 222-253), after the permission
check has passed.  `lockOk` is whether the per-channel `FileLock` was acquired
within its 3-second bound; on timeout the surrounding `except Timeout` replies
with an error message carrying the exception text `exnText`.  An empty
(stripped) command text deletes the record; a non-empty one writes it
verbatim. -/
def regRun (st : Store) (ch raw : List Char) (lockOk : Bool) (exnText : List Char) :
    Store × Reply :=
  let t := pyStrip raw
  if lockOk = false then
    (st, Reply.ephemeral ("プレフィックスの設定/解除中にエラーが発生しました: ".data ++ exnText))
  else if t.isEmpty then
    (storeSet st ch none,
     Reply.channelWide ("<#".data ++ (ch ++ "> の会議名プレフィックスを解除しました。".data)))
  else
    (storeSet st ch (some t),
     Reply.channelWide
       ("<#".data ++ (ch ++ ("> の会議名プレフィックスを `".data ++ (t ++ "` に設定しました。".data)))))

/-- Prefix value loaded by `handle_mtg_command` from a channel's file content
(app.py lines 267-279): absent file ⇒ empty prefix; otherwise the file's
content is read, stripped, and adopted only if non-empty. -/
def loadedPfx (content : Option (List Char)) : List Char :=
  match content with
  | none => []
  | some raw =>
    let t := pyStrip raw
    if t.isEmpty then [] else t

/-- The store-read operation as seen by `/mtg`: the prefix for a channel. -/
def getPfx (st : Store) (ch : List Char) : List Char :=
  loadedPfx (st ch)

/-! ## Guest resolution -/

/-- Slack mention text for a user id, `f"<@{mention_id}>"`. -/
def mentionTag (m : List Char) : List Char :=
  "<@".data ++ (m ++ ">".data)

/-- The guest loop of `handle_mtg_command` (app.py lines 344-356): skip a
mention equal to the invoking user, look up the email, append it to the
attendee list unless already present, and record failed lookups as mention
tags, preserving order. -/
def resolveGuestsAux (emailOf : List Char → Option (List Char)) (uid : List Char) :
    List (List Char) → List (List Char) → List (List Char) →
    List (List Char) × List (List Char)
  | [], acc, failed => (acc, failed)
  | m :: ms, acc, failed =>
    if m = uid then resolveGuestsAux emailOf uid ms acc failed
    else
      match emailOf m with
      | some e =>
        if e ∈ acc then resolveGuestsAux emailOf uid ms acc failed
        else resolveGuestsAux emailOf uid ms (acc ++ [e]) failed
      | none => resolveGuestsAux emailOf uid ms acc (failed ++ [mentionTag m])

/-- Attendee-email list and failed-guest list for a mention-id list. -/
def resolveGuests (emailOf : List Char → Option (List Char)) (uid : List Char)
    (ms : List (List Char)) : List (List Char) × List (List Char) :=
  resolveGuestsAux emailOf uid ms [] []

/-- The ids shown on the guest line (app.py line 457): all mention ids except
the invoking user's own. -/
def displayIds (uid : List Char) (mids : List (List Char)) : List (List Char) :=
  mids.filter (fun m => m ≠ uid)

/-- `", ".join(...)`. -/
def joinSep (sep : List Char) : List (List Char) → List Char
  | [] => []
  | [x] => x
  | x :: y :: xs => x ++ (sep ++ joinSep sep (y :: xs))

/-- Guest display string (app.py line 457): `"なし"` when there were no
mentions at all, otherwise the comma-joined mention tags of the non-owner
mention ids. -/
def guestStr (uid : List Char) (mids : List (List Char)) : List Char :=
  if mids.isEmpty then "なし".data
  else joinSep (", ".data) ((displayIds uid mids).map mentionTag)

/-! ## Meet API clients -/

/-- An HTTP interaction with the Meet API: a response with status code, the
optional `name` field of the decoded body, and the raw body text — or a
`requests` exception with its message. -/
inductive HttpResult where
  | resp (status : Nat) (nameField : Option (List Char)) (bodyText : List Char)
  | netExn (msg : List Char)
deriving DecidableEq

/-- `get_meet_space_id` (app.py lines 84-121) for a present conference id:
returns (space resource name, error message), exactly one of which is set. -/
def getMeetSpaceId (cid : List Char) (r : HttpResult) :
    Option (List Char) × Option (List Char) :=
  match r with
  | .netExn m => (none, some ("Meet API呼び出し中に通信エラーが発生しました: ".data ++ m))
  | .resp st nm _ =>
    if st = 200 then
      match nm with
      | some n => (some n, none)
      | none => (none, some ("Meetスペース情報の取得に失敗しました(レスポンス不正): ".data ++ cid))
    else if st = 404 then
      (none, some ("Meetスペースが見つかりません(404): ".data ++ cid))
    else
      (none, some ("Meetスペース情報取得エラー(".data ++ ((toString st).data ++ ("): ".data ++ cid))))

/-- `enable_meet_auto_artifact` (app.py lines 123-173) for a present space id:
(success flag, error message); any 2xx status succeeds, a 403 appends a
permission hint. -/
def enableArtifacts (sid : List Char) (r : HttpResult) : Bool × Option (List Char) :=
  match r with
  | .netExn m => (false, some ("Meet API呼び出し中に通信エラーが発生しました: ".data ++ m))
  | .resp st _ body =>
    if 200 ≤ st ∧ st < 300 then (true, none)
    else
      let base := "Meet自動録画設定エラー(".data ++
        ((toString st).data ++ ("): ".data ++ (sid ++ (", Response: ".data ++ body))))
      if st = 403 then
        (false, some (base ++ " (権限不足の可能性があります。Meet APIスコープとWorkspace設定を確認してください)".data))
      else (false, some base)

/-! ## The schedule-meeting handler -/

/-- Fields of a successfully created calendar event that the handler reads
(app.py lines 416-420). -/
structure CreatedEvent where
  htmlLink : Option (List Char)
  hangoutLink : Option (List Char)
  conferenceId : Option (List Char)
deriving DecidableEq

/-- One invocation's environment for `handle_mtg_command`: the invoking user
and raw text, the state of this channel's prefix file, the behaviour of the
file lock and file read, the Slack directory, the Google auth step, the
Calendar insert result, and the two Meet API responses.  `mentionIdsOf` is
the `re.findall` mention extraction (app.py line 343), taken as given. -/
structure MtgEnv where
  userId : List Char
  rawText : List Char
  fileContent : Option (List Char)
  pfxLockOk : Bool
  pfxReadOk : Bool
  readErrDetail : List Char
  emailOf : List Char → Option (List Char)
  mentionIdsOf : List Char → List (List Char)
  workspaceDomain : List Char
  authOk : Bool
  authErrDetail : List Char
  createEventResult : Except (List Char) CreatedEvent
  spaceResp : HttpResult
  enableResp : HttpResult
  timeStr : List Char

/-- Pipeline steps of the `/mtg` handler, in source order. -/
inductive Step where
  | loadPfx
  | parseCmd
  | resolveOwner
  | validateDomain
  | resolveGuests
  | googleAuth
  | createEvent
  | configureArtifacts
  | respond
deriving DecidableEq

/-- `user_domain = owner_email.split('@')[1]` (app.py line 332): the text
between the first `@` and the next `@` or the end; `none` models the
`IndexError` when the address has no `@`. -/
def domainAfterAt (e : List Char) : Option (List Char) :=
  if '@' ∈ e then some (((e.dropWhile (fun c => c ≠ '@')).tail).takeWhile (fun c => c ≠ '@'))
  else none

/-- ASCII `str.lower()`. -/
def lowerL (l : List Char) : List Char :=
  l.map Char.toLower

/-- The `MalformedCommand` usage reply (app.py lines 312-318). -/
def usageMsg : List Char :=
  ("コマンドの形式が正しくありません。\n形式:\n  `/mtg \"会議名にスペースを含む場合\" 会議時間(分) [@ゲスト...]`\nまたは\n  `/mtg 会議名スペースなし 会議時間(分) [@ゲスト...]`").data

/-- `recording_error_msg` when the created event carried no conference id
(app.py line 454). -/
def noConfIdMsg : List Char :=
  "会議IDがイベントから取得できなかったため、自動録画は設定されませんでした。".data

/-- URL field rendering in the final message: `取得失敗` when absent. -/
def optUrl : Option (List Char) → List Char
  | some u => u
  | none => "取得失敗".data

/-- The optional auto-recording warning line of the final message
(app.py lines 474-475). -/
def warnPart : Option (List Char) → List Char
  | some e => "\n自動録画: ⚠️ 設定に失敗しました (".data ++ (e ++ ")".data)
  | none => []

/-- The optional failed-guest warning of the final message
(app.py lines 478-479). -/
def guestWarn (failed : List (List Char)) : List Char :=
  if failed.isEmpty then []
  else "\n\n⚠️ 注意: 次のゲストのメールアドレスが見つからず、招待できませんでした: ".data ++
    joinSep (", ".data) failed

/-- The final broadcast message (app.py lines 463-479), assembled from the
prefixed title, time range, owner mention, guest line, links, and the two
optional warnings. -/
def finalMsg (env : MtgEnv) (ft : List Char) (mids : List (List Char))
    (failed : List (List Char)) (ev : CreatedEvent) (recErr : Option (List Char)) :
    List Char :=
  "✅ Googleカレンダーに予定を作成\n*".data ++
    (ft ++ ("*\n日時: ".data ++
      (env.timeStr ++ ("\nオーナー: ".data ++
        (mentionTag env.userId ++ ("\nゲスト: ".data ++
          (guestStr env.userId mids ++ ("\nGoogle Meet: ".data ++
            (optUrl ev.hangoutLink ++ ("\nカレンダーで表示: ".data ++
              (optUrl ev.htmlLink ++ (warnPart recErr ++ guestWarn failed))))))))))))

/-- `recording_error_msg` computed by the Meet section (app.py lines 437-454)
once the created event is in hand. -/
def artifactOutcome (env : MtgEnv) (ev : CreatedEvent) : Option (List Char) :=
  match ev.conferenceId with
  | none => some noConfIdMsg
  | some cid =>
    let sp := getMeetSpaceId cid env.spaceResp
    match sp.1 with
    | some sid =>
      let en := enableArtifacts sid env.enableResp
      if en.1 then none else en.2
    | none => sp.2

/-- `handle_mtg_command` (app.py lines 257-482): the sequence of pipeline
steps performed and the observable outcome.  Note: the prefix file lock is
acquired *outside* any `try`, so a lock timeout escapes the handler; and the
prefix is loaded *before* the command text is parsed. -/
def mtgRun (env : MtgEnv) : List Step × Outcome :=
  if env.pfxLockOk = false then
    ([Step.loadPfx], Outcome.raisedTimeout)
  else if env.fileContent.isSome = true ∧ env.pfxReadOk = false then
    ([Step.loadPfx],
     Outcome.replied (Reply.ephemeral ("プレフィックスの取得中にエラーが発生しました: ".data ++ env.readErrDetail)))
  else
    let pfx := loadedPfx env.fileContent
    match parseCommand (pyStrip env.rawText) with
    | none =>
      ([Step.loadPfx, Step.parseCmd], Outcome.replied (Reply.ephemeral usageMsg))
    | some (title, _dur, mtext) =>
      match env.emailOf env.userId with
      | none =>
        ([Step.loadPfx, Step.parseCmd, Step.resolveOwner],
         Outcome.replied (Reply.ephemeral
           (mentionTag env.userId ++ " のメールアドレスをSlackプロファイルから取得できませんでした。".data)))
      | some ownerEmail =>
        match domainAfterAt ownerEmail with
        | none =>
          ([Step.loadPfx, Step.parseCmd, Step.resolveOwner, Step.validateDomain],
           Outcome.replied (Reply.ephemeral "メールアドレスの形式が正しくありません。".data))
        | some dom =>
          if lowerL dom ≠ lowerL env.workspaceDomain then
            ([Step.loadPfx, Step.parseCmd, Step.resolveOwner, Step.validateDomain],
             Outcome.replied (Reply.ephemeral
               ("このコマンドは ".data ++ (env.workspaceDomain ++ " ドメインのユーザーのみ利用できます。".data))))
          else
            let mids := env.mentionIdsOf mtext
            let gr := resolveGuests env.emailOf env.userId mids
            if env.authOk = false then
              ([Step.loadPfx, Step.parseCmd, Step.resolveOwner, Step.validateDomain,
                Step.resolveGuests, Step.googleAuth],
               Outcome.replied (Reply.ephemeral
                 ("Google APIの認証に失敗しました: ".data ++ env.authErrDetail)))
            else
              match env.createEventResult with
              | .error d =>
                ([Step.loadPfx, Step.parseCmd, Step.resolveOwner, Step.validateDomain,
                  Step.resolveGuests, Step.googleAuth, Step.createEvent],
                 Outcome.replied (Reply.ephemeral
                   ("Googleカレンダーへの予定作成中にエラーが発生しました: ".data ++ d)))
              | .ok ev =>
                let ft := pfx ++ title
                match ev.conferenceId with
                | none =>
                  ([Step.loadPfx, Step.parseCmd, Step.resolveOwner, Step.validateDomain,
                    Step.resolveGuests, Step.googleAuth, Step.createEvent, Step.respond],
                   Outcome.replied (Reply.channelWide
                     (finalMsg env ft mids gr.2 ev (artifactOutcome env ev))))
                | some _ =>
                  ([Step.loadPfx, Step.parseCmd, Step.resolveOwner, Step.validateDomain,
                    Step.resolveGuests, Step.googleAuth, Step.createEvent,
                    Step.configureArtifacts, Step.respond],
                   Outcome.replied (Reply.channelWide
                     (finalMsg env ft mids gr.2 ev (artifactOutcome env ev))))

/-- A needle occurs as a contiguous segment of a haystack (substring of the
assembled Slack message). -/
def containsSeg (n h : List Char) : Prop :=
  ∃ a b, h = a ++ n ++ b

/-- The canonical pipeline order of §4.6, with the credential-acquisition
step of app.py lines 374-381 included, and `LoadPrefix` where the code
actually performs it (lines 267-287, before parsing). -/
def canonicalSteps : List Step :=
  [Step.loadPfx, Step.parseCmd, Step.resolveOwner, Step.validateDomain,
   Step.resolveGuests, Step.googleAuth, Step.createEvent,
   Step.configureArtifacts, Step.respond]

/-! ## Concrete environments used to evaluate the handlers -/

/-- An `/mtg` invocation whose channel prefix lock cannot be acquired within
the 3-second bound. -/
def envLockTimeout : MtgEnv :=
  { userId := "U1".data
    rawText := "mtg 30".data
    fileContent := some ("PFX ".data)
    pfxLockOk := false
    pfxReadOk := true
    readErrDetail := []
    emailOf := fun _ => some ("alice@org.com".data)
    mentionIdsOf := fun _ => []
    workspaceDomain := "org.com".data
    authOk := true
    authErrDetail := []
    createEventResult := Except.error ("err".data)
    spaceResp := HttpResult.resp 200 none []
    enableResp := HttpResult.resp 200 none []
    timeStr := "2025-01-01 10:00 ～ 10:30".data }

/-- An `/mtg` invocation whose command text matches neither grammar, on a
channel that has a stored prefix. -/
def envParseFail : MtgEnv :=
  { userId := "U1".data
    rawText := "onlyoneword".data
    fileContent := some ("PFX ".data)
    pfxLockOk := true
    pfxReadOk := true
    readErrDetail := []
    emailOf := fun _ => some ("alice@org.com".data)
    mentionIdsOf := fun _ => []
    workspaceDomain := "org.com".data
    authOk := true
    authErrDetail := []
    createEventResult := Except.error ("err".data)
    spaceResp := HttpResult.resp 200 none []
    enableResp := HttpResult.resp 200 none []
    timeStr := "2025-01-01 10:00 ～ 10:30".data }

/-- An `/mtg` invocation that reaches the Calendar insert, which fails. -/
def envEventFail : MtgEnv :=
  { userId := "U1".data
    rawText := "mtg 30".data
    fileContent := none
    pfxLockOk := true
    pfxReadOk := true
    readErrDetail := []
    emailOf := fun _ => some ("alice@org.com".data)
    mentionIdsOf := fun _ => []
    workspaceDomain := "org.com".data
    authOk := true
    authErrDetail := []
    createEventResult := Except.error ("quotaExceeded".data)
    spaceResp := HttpResult.resp 200 none []
    enableResp := HttpResult.resp 200 none []
    timeStr := "2025-01-01 10:00 ～ 10:30".data }

/-- An `/mtg` invocation whose command text starts an unterminated quote. -/
def envMalformed : MtgEnv :=
  { userId := "U1".data
    rawText := "\"unterminated quote 5".data
    fileContent := none
    pfxLockOk := true
    pfxReadOk := true
    readErrDetail := []
    emailOf := fun _ => some ("alice@org.com".data)
    mentionIdsOf := fun _ => []
    workspaceDomain := "org.com".data
    authOk := true
    authErrDetail := []
    createEventResult := Except.error ("err".data)
    spaceResp := HttpResult.resp 200 none []
    enableResp := HttpResult.resp 200 none []
    timeStr := "2025-01-01 10:00 ～ 10:30".data }

/-- The created event of the 404 scenario. -/
def evSpace404 : CreatedEvent :=
  { htmlLink := some ("cal.example/e1".data)
    hangoutLink := some ("meet.example/m1".data)
    conferenceId := some ("abc-defg-hij".data) }

/-- An `/mtg` invocation where event creation succeeds but the Meet space
lookup answers 404. -/
def envSpace404 : MtgEnv :=
  { userId := "U1".data
    rawText := "mtg 30".data
    fileContent := none
    pfxLockOk := true
    pfxReadOk := true
    readErrDetail := []
    emailOf := fun _ => some ("alice@org.com".data)
    mentionIdsOf := fun _ => []
    workspaceDomain := "org.com".data
    authOk := true
    authErrDetail := []
    createEventResult := Except.ok evSpace404
    spaceResp := HttpResult.resp 404 none ("notFound".data)
    enableResp := HttpResult.resp 200 none []
    timeStr := "2025-01-01 10:00 ～ 10:30".data }

/-! ## Helper lemmas -/

theorem seg_here (n rest : List Char) : containsSeg n (n ++ rest) :=
  ⟨[], rest, rfl⟩

theorem seg_cons (a : List Char) {n h : List Char} (hs : containsSeg n h) :
    containsSeg n (a ++ h) := by
  obtain ⟨x, y, e⟩ := hs
  exact ⟨a ++ x, y, by rw [e]; simp [List.append_assoc]⟩

theorem head?_dropWhile_false (p : Char → Bool) (l : List Char) :
    ∀ c, (l.dropWhile p).head? = some c → p c = false := by
  induction l with
  | nil => intro c h; simp [List.dropWhile] at h
  | cons a t ih =>
    intro c h
    by_cases hp : p a
    · rw [List.dropWhile_cons_of_pos hp] at h
      exact ih c h
    · rw [List.dropWhile_cons_of_neg hp] at h
      simp at h
      rw [← h]
      exact Bool.eq_false_iff.mpr hp

theorem getLast?_dropWhile (p : Char → Bool) (l : List Char)
    (h : l.dropWhile p ≠ []) : (l.dropWhile p).getLast? = l.getLast? := by
  induction l with
  | nil => simp [List.dropWhile] at h
  | cons a t ih =>
    by_cases hp : p a
    · rw [List.dropWhile_cons_of_pos hp] at h ⊢
      have ht : t ≠ [] := by
        intro he; rw [he] at h; simp [List.dropWhile] at h
      rw [ih h]
      cases t with
      | nil => exact absurd rfl ht
      | cons b u => simp [List.getLast?_cons_cons]
    · rw [List.dropWhile_cons_of_neg hp]

theorem getLast?_reverse_eq_head? (l : List Char) :
    l.reverse.getLast? = l.head? := by
  cases l with
  | nil => rfl
  | cons a t => simp [List.getLast?_reverse]

theorem pyStrip_head_not_space (l : List Char) :
    ∀ c, (pyStrip l).head? = some c → pySpace c = false := by
  intro c h
  exact head?_dropWhile_false pySpace (rtrimL l) c h

theorem pyStrip_getLast_not_space (l : List Char) :
    ∀ c, (pyStrip l).getLast? = some c → pySpace c = false := by
  intro c h
  have hne : pyStrip l ≠ [] := by
    intro he; rw [he] at h; simp at h
  unfold pyStrip at h hne
  rw [getLast?_dropWhile pySpace (rtrimL l) hne] at h
  unfold rtrimL at h
  rw [getLast?_reverse_eq_head?] at h
  exact head?_dropWhile_false pySpace l.reverse c h

theorem pyStrip_all_space (l : List Char) (h : l.all pySpace = true) :
    pyStrip l = [] := by
  have hr : l.reverse.dropWhile pySpace = [] := by
    rw [List.dropWhile_eq_nil_iff]
    intro x hx
    exact (List.all_eq_true.mp h) x (List.mem_reverse.mp hx)
  unfold pyStrip rtrimL
  rw [hr]
  rfl

theorem quotedMatch_title_ne (s t : List Char) (d : Nat) (m : List Char)
    (h : quotedMatch s = some (t, d, m)) : t ≠ [] := by
  unfold quotedMatch at h
  split at h
  · dsimp only at h
    split at h
    · exact absurd h (by simp)
    · split at h
      · simp only [Option.map_eq_some'] at h
        obtain ⟨p, _, hp⟩ := h
        have ht : t = _ := congrArg Prod.fst hp.symm
        rw [ht]
        intro he
        simp_all [List.isEmpty_iff]
      · exact absurd h (by simp)
  · exact absurd h (by simp)

theorem unquotedMatch_title_ne (s t : List Char) (d : Nat) (m : List Char)
    (h : unquotedMatch s = some (t, d, m)) : t ≠ [] := by
  unfold unquotedMatch at h
  dsimp only at h
  split at h
  · exact absurd h (by simp)
  · simp only [Option.map_eq_some'] at h
    obtain ⟨p, _, hp⟩ := h
    have ht : t = _ := congrArg Prod.fst hp.symm
    rw [ht]
    intro he
    simp_all [List.isEmpty_iff]

theorem resolveGuestsAux_owner_skip (emailOf : List Char → Option (List Char))
    (uid : List Char) (post : List (List Char)) :
    ∀ pre acc failed, resolveGuestsAux emailOf uid (pre ++ uid :: post) acc failed =
      resolveGuestsAux emailOf uid (pre ++ post) acc failed := by
  intro pre
  induction pre with
  | nil =>
    intro acc failed
    simp [resolveGuestsAux]
  | cons a t ih =>
    intro acc failed
    by_cases ha : a = uid
    · simp [resolveGuestsAux, ha, ih]
    · cases he : emailOf a with
      | some e =>
        by_cases hm : e ∈ acc <;> simp [resolveGuestsAux, ha, he, hm, ih]
      | none => simp [resolveGuestsAux, ha, he, ih]

theorem resolveGuestsAux_nodup (emailOf : List Char → Option (List Char))
    (uid : List Char) :
    ∀ ms acc failed, acc.Nodup → ((resolveGuestsAux emailOf uid ms acc failed).1).Nodup := by
  intro ms
  induction ms with
  | nil => intro acc failed h; simpa [resolveGuestsAux] using h
  | cons a t ih =>
    intro acc failed h
    simp only [resolveGuestsAux]
    split
    · exact ih acc failed h
    · split
      · split
        · exact ih acc failed h
        · rename_i hni
          refine ih _ failed ?_
          rw [List.nodup_append]
          refine ⟨h, List.nodup_singleton _, ?_⟩
          intro x hx hxe
          simp at hxe
          rw [hxe] at hx
          exact hni hx
      · exact ih acc _ h

/-! ## Claim theorems -/

/-- C1: evidence of the code bug.  The set-prefix handler wraps its
`FileLock` in `try/except Timeout`, so a lock-acquisition timeout is replied
to the invoking user as an (ephemeral) error message; but in the
schedule-meeting handler the `FileLock` acquisition sits outside the
`try` (the `except Timeout` is inside the `with` block and can never fire),
so a lock-acquisition timeout escapes the handler as an unhandled
`filelock.Timeout` exception and no reply is sent. -/
theorem lock_timeout_divergence :
    (regRun (fun _ => none) ("C1".data) ("abc".data) false ("lock timeout".data)).2 =
      Reply.ephemeral ("プレフィックスの設定/解除中にエラーが発生しました: ".data ++ "lock timeout".data) ∧
    mtgRun envLockTimeout = ([Step.loadPfx], Outcome.raisedTimeout) :=
  ⟨rfl, rfl⟩

/-- C2 (counterexample): the claim "an invocation that fails parsing never
touches the configuration store" is false — the prefix lookup runs before
command parsing, so the store is touched even when the text
(`onlyoneword`) matches neither grammar. -/
theorem store_touched_on_parse_failure_cex :
    ¬ (∀ env : MtgEnv, parseCommand (pyStrip env.rawText) = none →
        Step.loadPfx ∉ (mtgRun env).1) := by
  intro hcl
  exact hcl envParseFail (by decide) (by decide)

/-- C2 (amended): every invocation's step sequence is a subsequence of
LoadPrefix, ParseCommand, ResolveOwner, ValidateDomain, ResolveGuests,
GoogleAuth, CreateEvent, ConfigureArtifacts, Respond — i.e. the stated order
holds except that the prefix lookup is the FIRST step, performed before
command parsing. -/
theorem pipeline_order (env : MtgEnv) :
    List.Sublist (mtgRun env).1 canonicalSteps ∧
    (mtgRun env).1.head? = some Step.loadPfx := by
  unfold mtgRun
  repeat' split
  all_goals refine ⟨?_, rfl⟩
  all_goals dsimp only
  all_goals decide

theorem pipeline_order_witness :
    List.Sublist (mtgRun envLockTimeout).1 canonicalSteps ∧
    (mtgRun envLockTimeout).1.head? = some Step.loadPfx :=
  pipeline_order envLockTimeout

/-- C3 (amended): every `MeetingRequest` produced by the command parser has a
non-empty title; the parsed duration is a natural number but is NOT forced to
be positive (the `\d+` duration pattern accepts `0`). -/
theorem parsed_title_nonempty (s t : List Char) (d : Nat) (m : List Char)
    (h : parseCommand s = some (t, d, m)) : t ≠ [] := by
  unfold parseCommand at h
  split at h
  · rename_i v hq
    obtain ⟨t', d', m'⟩ := v
    injection h with h'
    rw [h'] at hq
    exact quotedMatch_title_ne s t d m hq
  · exact unquotedMatch_title_ne s t d m h

theorem parsed_title_nonempty_witness : ("x".data : List Char) ≠ [] :=
  parsed_title_nonempty ("x 5".data) ("x".data) 5 [] (by decide)

/-- C3 (counterexample): the claim as stated — strictly positive duration for
every accepted input — fails on the input `x 0`, which the unquoted grammar
accepts with duration 0. -/
theorem parsed_duration_positive_cex :
    ¬ (∀ s t : List Char, ∀ d : Nat, ∀ m : List Char,
        parseCommand s = some (t, d, m) → 0 < d ∧ t ≠ []) := by
  intro hcl
  have h := (hcl ("x 0".data) ("x".data) 0 [] (by decide)).1
  exact absurd h (by decide)

/-- C4: when the Calendar insert fails, no artifact-configurator step is
performed and the reply is ephemeral (user-only), carrying the upstream
error detail. -/
theorem event_failure_no_artifacts (env : MtgEnv) (title : List Char) (dur : Nat)
    (mtext oe dom d : List Char)
    (hlock : env.pfxLockOk = true) (hread : env.pfxReadOk = true)
    (hp : parseCommand (pyStrip env.rawText) = some (title, dur, mtext))
    (hoe : env.emailOf env.userId = some oe)
    (hdm : domainAfterAt oe = some dom)
    (hdom : lowerL dom = lowerL env.workspaceDomain)
    (hauth : env.authOk = true)
    (herr : env.createEventResult = Except.error d) :
    Step.configureArtifacts ∉ (mtgRun env).1 ∧
    (mtgRun env).2 = Outcome.replied (Reply.ephemeral
      ("Googleカレンダーへの予定作成中にエラーが発生しました: ".data ++ d)) := by
  have hrun : mtgRun env = ([Step.loadPfx, Step.parseCmd, Step.resolveOwner,
      Step.validateDomain, Step.resolveGuests, Step.googleAuth, Step.createEvent],
      Outcome.replied (Reply.ephemeral
        ("Googleカレンダーへの予定作成中にエラーが発生しました: ".data ++ d))) := by
    simp [mtgRun, hlock, hread, hp, hoe, hdm, hdom, hauth, herr]
  rw [hrun]
  refine ⟨?_, rfl⟩
  dsimp only
  decide

theorem event_failure_no_artifacts_witness :
    Step.configureArtifacts ∉ (mtgRun envEventFail).1 ∧
    (mtgRun envEventFail).2 = Outcome.replied (Reply.ephemeral
      ("Googleカレンダーへの予定作成中にエラーが発生しました: ".data ++ "quotaExceeded".data)) :=
  event_failure_no_artifacts envEventFail ("mtg".data) 30 [] ("alice@org.com".data)
    ("org.com".data) ("quotaExceeded".data) rfl rfl (by decide) rfl (by decide) (by decide)
    rfl rfl

/-- C5: when event creation succeeds but the Meet space lookup returns 404,
the final reply is broadcast to the channel, contains the meeting details
(prefixed title, time range, owner mention, links when present) and the
auto-recording warning line carrying the 404 message; the command does not
fail. -/
theorem space404_public_with_warning (env : MtgEnv) (title : List Char) (dur : Nat)
    (mtext oe dom : List Char) (ev : CreatedEvent) (cid : List Char)
    (nf : Option (List Char)) (bd : List Char)
    (hlock : env.pfxLockOk = true) (hread : env.pfxReadOk = true)
    (hp : parseCommand (pyStrip env.rawText) = some (title, dur, mtext))
    (hoe : env.emailOf env.userId = some oe)
    (hdm : domainAfterAt oe = some dom)
    (hdom : lowerL dom = lowerL env.workspaceDomain)
    (hauth : env.authOk = true)
    (hev : env.createEventResult = Except.ok ev)
    (hcid : ev.conferenceId = some cid)
    (hsp : env.spaceResp = HttpResult.resp 404 nf bd) :
    ∃ m, (mtgRun env).2 = Outcome.replied (Reply.channelWide m) ∧
      containsSeg (loadedPfx env.fileContent ++ title) m ∧
      containsSeg env.timeStr m ∧
      containsSeg (mentionTag env.userId) m ∧
      (∀ u, ev.hangoutLink = some u → containsSeg u m) ∧
      (∀ u, ev.htmlLink = some u → containsSeg u m) ∧
      containsSeg (warnPart (some ("Meetスペースが見つかりません(404): ".data ++ cid))) m := by
  have hart : artifactOutcome env ev =
      some ("Meetスペースが見つかりません(404): ".data ++ cid) := by
    simp [artifactOutcome, hcid, hsp, getMeetSpaceId]
  have hrun : mtgRun env = (canonicalSteps, Outcome.replied (Reply.channelWide
      (finalMsg env (loadedPfx env.fileContent ++ title) (env.mentionIdsOf mtext)
        (resolveGuests env.emailOf env.userId (env.mentionIdsOf mtext)).2 ev
        (some ("Meetスペースが見つかりません(404): ".data ++ cid))))) := by
    simp [mtgRun, hlock, hread, hp, hoe, hdm, hdom, hauth, hev, hcid, hart, canonicalSteps]
  refine ⟨_, by rw [hrun], ?_, ?_, ?_, ?_, ?_, ?_⟩
  · unfold finalMsg
    repeat first | exact seg_here _ _ | apply seg_cons
  · unfold finalMsg
    repeat first | exact seg_here _ _ | apply seg_cons
  · unfold finalMsg
    repeat first | exact seg_here _ _ | apply seg_cons
  · intro u hu
    unfold finalMsg
    rw [hu]
    simp only [optUrl]
    repeat first | exact seg_here _ _ | apply seg_cons
  · intro u hu
    unfold finalMsg
    rw [hu]
    simp only [optUrl]
    repeat first | exact seg_here _ _ | apply seg_cons
  · unfold finalMsg
    repeat first | exact seg_here _ _ | apply seg_cons

theorem space404_public_with_warning_witness :
    ∃ m, (mtgRun envSpace404).2 = Outcome.replied (Reply.channelWide m) ∧
      containsSeg (warnPart (some ("Meetスペースが見つかりません(404): ".data ++ "abc-defg-hij".data))) m := by
  obtain ⟨m, h1, _, _, _, _, _, h7⟩ :=
    space404_public_with_warning envSpace404 ("mtg".data) 30 [] ("alice@org.com".data)
      ("org.com".data) evSpace404 ("abc-defg-hij".data) none ("notFound".data)
      rfl rfl (by decide) rfl (by decide) (by decide) rfl rfl rfl rfl
  exact ⟨m, h1, h7⟩

/-- C6: any command text matching neither grammar yields the ephemeral
usage-hint reply and halts the pipeline right after parsing (the only
parser-level failure mode); in particular both `"unterminated quote 5` and
`onlyoneword` match neither grammar. -/
theorem malformed_private_usage (env : MtgEnv)
    (hlock : env.pfxLockOk = true) (hread : env.pfxReadOk = true)
    (hp : parseCommand (pyStrip env.rawText) = none) :
    (mtgRun env).2 = Outcome.replied (Reply.ephemeral usageMsg) ∧
    (mtgRun env).1 = [Step.loadPfx, Step.parseCmd] ∧
    parseCommand (pyStrip ("\"unterminated quote 5".data)) = none ∧
    parseCommand (pyStrip ("onlyoneword".data)) = none := by
  refine ⟨?_, ?_, by decide, by decide⟩ <;>
    simp [mtgRun, hlock, hread, hp]

theorem malformed_private_usage_witness :
    (mtgRun envMalformed).2 = Outcome.replied (Reply.ephemeral usageMsg) :=
  (malformed_private_usage envMalformed rfl rfl (by decide)).1

/-- C7: setting a non-empty prefix and then an empty one leaves no record for
the channel; reading it (or any never-set channel) yields the empty prefix;
and the store reachable through the set-prefix handler never holds a record
whose value is the empty string. -/
theorem pfx_clear_deletes (st : Store) (ch raw1 raw2 e1 e2 : List Char)
    (h1 : pyStrip raw1 ≠ []) (h2 : pyStrip raw2 = []) :
    (regRun (regRun st ch raw1 true e1).1 ch raw2 true e2).1 ch = none ∧
    getPfx (regRun (regRun st ch raw1 true e1).1 ch raw2 true e2).1 ch = [] ∧
    (∀ c, getPfx (fun _ => none) c = []) ∧
    (∀ st0 : Store, ∀ c r : List Char, ∀ lk : Bool, ∀ ex : List Char,
      (∀ c2, st0 c2 ≠ some []) →
      ∀ c2, (regRun st0 c r lk ex).1 c2 ≠ some []) := by
  have hgone : (regRun (regRun st ch raw1 true e1).1 ch raw2 true e2).1 ch = none := by
    simp [regRun, storeSet, List.isEmpty_iff, h1, h2]
  refine ⟨hgone, by simp [getPfx, hgone, loadedPfx], fun c => rfl, ?_⟩
  intro st0 c r lk ex hinv c2
  unfold regRun
  dsimp only
  split
  · exact hinv c2
  · split
    · unfold storeSet
      dsimp only
      split
      · simp
      · exact hinv c2
    · unfold storeSet
      dsimp only
      split
      · rename_i hne _
        intro hcontra
        injection hcontra with hc
        rw [hc] at hne
        simp [List.isEmpty_iff] at hne
      · exact hinv c2

theorem pfx_clear_deletes_witness :
    (regRun (regRun (fun _ => none) ("C1".data) ("abc".data) true []).1
      ("C1".data) ("  ".data) true []).1 ("C1".data) = none :=
  (pfx_clear_deletes (fun _ => none) ("C1".data) ("abc".data) ("  ".data) [] []
    (by decide) (by decide)).1

/-- C8: a guest mention equal to the invoking owner's id contributes nothing
to guest resolution (same attendees and same failed list), the attendee-email
list never contains duplicates (dedup by resolved email), and the owner's id
never appears among the displayed guest ids. -/
theorem owner_excluded_guests_dedup (emailOf : List Char → Option (List Char))
    (uid : List Char) :
    (∀ pre post : List (List Char),
      resolveGuests emailOf uid (pre ++ uid :: post) =
        resolveGuests emailOf uid (pre ++ post)) ∧
    (∀ ms : List (List Char), ((resolveGuests emailOf uid ms).1).Nodup) ∧
    (∀ ms : List (List Char), uid ∉ displayIds uid ms) := by
  refine ⟨?_, ?_, ?_⟩
  · intro pre post
    exact resolveGuestsAux_owner_skip emailOf uid post pre [] []
  · intro ms
    exact resolveGuestsAux_nodup emailOf uid ms [] [] List.nodup_nil
  · intro ms hmem
    have h := List.mem_filter.mp hmem
    simp at h

theorem owner_excluded_guests_dedup_witness :
    ((resolveGuests (fun _ => some ("bob@org.com".data)) ("U1".data)
      [("U2".data), ("U1".data), ("U2".data)]).1).Nodup :=
  (owner_excluded_guests_dedup (fun _ => some ("bob@org.com".data)) ("U1".data)).2.1
    [("U2".data), ("U1".data), ("U2".data)]

/-- C9: an input whose second token is a digit run immediately followed by
non-digit characters (`title 5x @guest`) is not rejected: parsing succeeds
with duration 5 and the trailing characters folded into the mention
remainder, because the duration pattern need not span the whole token. -/
theorem digit_run_partial_token :
    parseCommand ("title 5x @guest".data) =
      some ("title".data, 5, "x @guest".data) := by
  decide

/-- C10: the prefix loaded by the schedule-meeting handler is the stored
record stripped of surrounding whitespace — it never starts or ends with
whitespace, a whitespace-only record yields the empty prefix, and an absent
record yields the empty prefix. -/
theorem pfx_value_trimmed (raw : List Char) :
    (∀ c, (loadedPfx (some raw)).head? = some c → pySpace c = false) ∧
    (∀ c, (loadedPfx (some raw)).getLast? = some c → pySpace c = false) ∧
    (raw.all pySpace = true → loadedPfx (some raw) = []) ∧
    loadedPfx none = [] := by
  refine ⟨?_, ?_, ?_, rfl⟩
  · intro c h
    unfold loadedPfx at h
    dsimp only at h
    split at h
    · simp at h
    · exact pyStrip_head_not_space raw c h
  · intro c h
    unfold loadedPfx at h
    dsimp only at h
    split at h
    · simp at h
    · exact pyStrip_getLast_not_space raw c h
  · intro h
    unfold loadedPfx
    simp [pyStrip_all_space raw h]

theorem pfx_value_trimmed_witness :
    pySpace 'a' = false ∧ loadedPfx (some ("   ".data)) = [] :=
  ⟨(pfx_value_trimmed (" a ".data)).1 'a' (by decide),
   (pfx_value_trimmed ("   ".data)).2.2.1 (by decide)⟩

end MeetBot
